import Mathlib

/-!
Verification of the AgentShell virtual-filesystem core.

The definitions below are a shallow embedding of the TypeScript sources:
the VFS mapper (`vfs_mapper.ts`), the shell kernel (`background/index.ts`)
and the CDP client (`cdp_client.ts`).  JavaScript strings are modelled as
Lean `String`; JS `Map` objects as association lists in insertion order;
thrown exceptions as an error constructor; the asynchronous CDP / Chrome
round-trips as an explicit `external` outcome (execution up to the first
external call is modelled exactly, nothing beyond it).  JS regex classes
(`\s`, `[a-z0-9]`, `toLowerCase`) are modelled on their ASCII meaning.
-/

/-! ## JS string primitives -/

/-- ASCII whitespace, modelling the JS `\s` class and `trim()` (space, tab,
newline, carriage return, vertical tab, form feed). -/
def jsIsSpace (c : Char) : Bool :=
  c == ' ' || c == '\t' || c == '\n' || c == '\r' || c.toNat == 11 || c.toNat == 12

/-- JS `String.prototype.trim` on a character list. -/
def jsTrimList (l : List Char) : List Char :=
  ((l.dropWhile jsIsSpace).reverse.dropWhile jsIsSpace).reverse

/-- JS `String.prototype.trim`. -/
def jsTrim (s : String) : String := String.mk (jsTrimList s.data)

/-- JS `String.prototype.toLowerCase` (ASCII). -/
def strLower (s : String) : String := String.mk (s.data.map Char.toLower)

/-- JS `String.prototype.includes`: substring test. -/
def strContains (hay needle : String) : Bool := decide (needle.data <:+: hay.data)

/-- JS `String.prototype.padEnd(n)` with spaces. -/
def padEnd (s : String) (n : Nat) : String :=
  s ++ String.mk (List.replicate (n - s.length) ' ')

/-! ## Decimal rendering of numbers (JS number-to-string for naturals) -/

/-- The decimal digit character for `n < 10`. -/
def decDigitChar (n : Nat) : Char := Char.ofNat (48 + n)

/-- Structural (fuel-indexed) most-significant-first decimal digits. -/
def decDigitsCore : Nat → Nat → List Char
  | 0, _ => []
  | fuel + 1, n =>
      if n < 10 then [decDigitChar n]
      else decDigitsCore fuel (n / 10) ++ [decDigitChar (n % 10)]

/-- JS `${n}` for a natural number: its decimal representation. -/
def jsNatRepr (n : Nat) : String := String.mk (decDigitsCore (n + 1) n)

/-- Numeric value of a decimal digit character. -/
def decDigitVal (c : Char) : Nat := c.toNat - 48

/-- Left fold reading decimal digits back into a number. -/
def decodeDigits (l : List Char) : Nat :=
  l.foldl (fun acc c => acc * 10 + decDigitVal c) 0

theorem decodeDigits_append_singleton (l : List Char) (c : Char) :
    decodeDigits (l ++ [c]) = decodeDigits l * 10 + decDigitVal c := by
  simp [decodeDigits]

theorem decDigitVal_decDigitChar {n : Nat} (h : n < 10) :
    decDigitVal (decDigitChar n) = n := by
  interval_cases n <;> decide

theorem decodeDigits_decDigitsCore :
    ∀ fuel n, n < fuel → decodeDigits (decDigitsCore fuel n) = n := by
  intro fuel
  induction fuel with
  | zero => intro n h; omega
  | succ fuel ih =>
    intro n h
    by_cases h10 : n < 10
    · simp only [decDigitsCore, if_pos h10]
      simpa [decodeDigits] using decDigitVal_decDigitChar h10
    · have hn : 0 < n := by omega
      have hdiv : n / 10 < fuel := by
        have h1 : n / 10 < n := Nat.div_lt_self hn (by omega)
        omega
      simp only [decDigitsCore, if_neg h10]
      rw [decodeDigits_append_singleton, ih _ hdiv,
        decDigitVal_decDigitChar (Nat.mod_lt n (by omega))]
      omega

theorem jsNatRepr_inj {a b : Nat} (h : jsNatRepr a = jsNatRepr b) : a = b := by
  have hd : decDigitsCore (a + 1) a = decDigitsCore (b + 1) b :=
    congrArg String.data h
  have ha := decodeDigits_decDigitsCore (a + 1) a (by omega)
  have hb := decodeDigits_decDigitsCore (b + 1) b (by omega)
  rw [← ha, ← hb, hd]

/-! ## Data model (`shared/types.ts`) -/

/-- One accessibility record, as delivered by CDP (`AXNode` in
`shared/types.ts`).  The `role`/`name`/`description`/`value` fields model the
`.value` component of the corresponding optional CDP value wrappers; the
unused `properties` field is omitted. -/
structure AXNode where
  nodeId : String
  backendDOMNodeId : Option Nat := none
  role : Option String := none
  name : Option String := none
  description : Option String := none
  value : Option String := none
  childIds : Option (List String) := none
  ignored : Bool := false
deriving DecidableEq, Repr

/-- A virtual-filesystem entry (`VFSNode` in `shared/types.ts`); the unused
`children` field is omitted. -/
structure VFSNode where
  axNodeId : String
  backendDOMNodeId : Option Nat
  name : String
  role : String
  value : Option String
  isDirectory : Bool
deriving DecidableEq, Repr

/-- Default entry used with `List.getD` in index-based statements. -/
def vfsDefault : VFSNode := ⟨"", none, "", "", none, false⟩

/-- `CONTAINER_ROLES` from `shared/types.ts`. -/
def containerRoles : List String :=
  ["group", "navigation", "form", "section", "main", "complementary", "banner",
   "contentinfo", "region", "article", "list", "listitem", "tree", "treeitem",
   "tablist", "tabpanel", "dialog", "menu", "menubar", "toolbar", "table",
   "row", "rowgroup", "grid", "document", "application", "generic", "WebArea",
   "RootWebArea"]

/-- `INTERACTIVE_ROLES` from `shared/types.ts`. -/
def interactiveRoles : List String :=
  ["button", "link", "textbox", "checkbox", "radio", "combobox", "menuitem",
   "menuitemcheckbox", "menuitemradio", "option", "switch", "tab", "slider",
   "spinbutton", "searchbox"]

/-- A JS `Map<string, AXNode>` in insertion order.  Lookup takes the first
matching key; `mapSet` (below) keeps keys unique, matching `Map.set`. -/
abbrev NodeMap := List (String × AXNode)

/-- `Map.get`: first entry with the given key. -/
def nmGet (m : NodeMap) (k : String) : Option AXNode :=
  (m.find? (fun p => p.1 == k)).map (·.2)

/-- `Map.set`: overwrite in place if the key exists, else append. -/
def mapSet (m : NodeMap) (k : String) (v : AXNode) : NodeMap :=
  if m.any (fun p => p.1 == k) then
    m.map (fun p => if p.1 == k then (k, v) else p)
  else m ++ [(k, v)]

/-! ## VFS mapper (`vfs_mapper.ts`) -/

/-- The role-suffix table in `generateNodeName`. -/
def roleSuffix (role : String) : String :=
  match role with
  | "button" => "_btn"
  | "link" => "_link"
  | "textbox" => "_input"
  | "checkbox" => "_chk"
  | "radio" => "_radio"
  | "combobox" => "_select"
  | "menuitem" => "_item"
  | "tab" => "_tab"
  | "slider" => "_slider"
  | "searchbox" => "_search"
  | "switch" => "_switch"
  | "img" => "_img"
  | "image" => "_img"
  | "heading" => "_heading"
  | _ => ""

/-- The `sanitize` closure in `generateNodeName`: lowercase, strip characters
outside `[a-z0-9\s_-]`, trim, collapse whitespace runs to `_`, truncate to 40
characters. -/
def sanitizeKeep (c : Char) : Bool :=
  ('a' ≤ c && c ≤ 'z') || ('0' ≤ c && c ≤ '9') || jsIsSpace c || c == '_' || c == '-'

/-- Collapse each whitespace run to a single underscore (the
`replace(/\s+/g, "_")` step); the flag records whether the previous kept
character was whitespace. -/
def collapseWs : Bool → List Char → List Char
  | _, [] => []
  | prev, c :: rest =>
      if jsIsSpace c then
        if prev then collapseWs true rest else '_' :: collapseWs true rest
      else c :: collapseWs false rest

def sanitize (s : String) : String :=
  String.mk ((collapseWs false (jsTrimList ((s.data.map Char.toLower).filter sanitizeKeep))).take 40)

/-- `generateNodeName` from `vfs_mapper.ts`.  The source's early returns are
flattened into a three-way conditional: a branch is taken exactly when the
source would have returned there. -/
def generateNodeName (node : AXNode) : String :=
  let role := node.role.getD "unknown"
  let nm := node.name.getD ""
  let ds := node.description.getD ""
  if nm ≠ "" ∧ sanitize nm ≠ "" then sanitize nm ++ roleSuffix role
  else if ds ≠ "" ∧ sanitize ds ≠ "" then sanitize ds ++ roleSuffix role
  else role ++ (if roleSuffix role = "" then "_" ++ node.nodeId else roleSuffix role)

/-- `isContainerNode` from `vfs_mapper.ts`. -/
def isContainerNode (node : AXNode) : Bool :=
  let role := node.role.getD ""
  if containerRoles.contains role then true
  else if (node.childIds.getD []).length > 0 && !(interactiveRoles.contains role) then true
  else false

/-- `buildNodeMap` from `vfs_mapper.ts`: drop ignored nodes, insert the rest
in order. -/
def buildNodeMap (axNodes : List AXNode) : NodeMap :=
  axNodes.foldl (fun m n => if n.ignored then m else mapSet m n.nodeId n) []

/-- `findRootNode` from `vfs_mapper.ts`: first node (in insertion order) whose
role is `RootWebArea` or `WebArea`, else the first node. -/
def findRootNode (m : NodeMap) : Option AXNode :=
  match m.find? (fun p =>
      (p.2.role.getD "") == "RootWebArea" || (p.2.role.getD "") == "WebArea") with
  | some p => some p.2
  | none => m.head?.map (·.2)

/-- `axNodeToVFSNode` from `vfs_mapper.ts`. -/
def axNodeToVFSNode (node : AXNode) : Option VFSNode :=
  let role := node.role.getD ""
  if role = "none" ∨ role = "Ignored" then none
  else some
    { axNodeId := node.nodeId
      backendDOMNodeId := node.backendDOMNodeId
      name := generateNodeName node
      role := role
      value := node.value
      isDirectory := isContainerNode node }

/-- `deduplicateName` from `vfs_mapper.ts`.  The `seenNames` map is modelled
as a total function with default 0 (`seenNames.get(base) ?? 0`); the result is
the renamed node and the updated map. -/
def deduplicateName (node : VFSNode) (seen : String → Nat) :
    VFSNode × (String → Nat) :=
  let baseName := node.name
  let count := seen baseName
  let node' :=
    if count > 0 then { node with name := baseName ++ "_" ++ jsNatRepr (count + 1) }
    else node
  (node', fun k => if k = baseName then count + 1 else seen k)

/-- The per-child decision of the loop in `getChildVFSNodes`: which `VFSNode`
(if any) is pushed for child id `cid`.  `none` models the loop's `continue`
with nothing pushed (missing or ignored child, `none`/`Ignored` role, or an
elided wrapper whose grandchild converts to `null`); the flatten branch
mirrors lines 144-159 of the source including its fallthrough when the
grandchild is missing or ignored. -/
def entryFor (m : NodeMap) (cid : String) : Option VFSNode :=
  match nmGet m cid with
  | none => none
  | some child =>
    if child.ignored then none
    else
      let role := child.role.getD ""
      let nm := child.name.getD ""
      if role = "none" ∨ role = "Ignored" then none
      else
        match child.childIds with
        | some [gid] =>
          if role = "generic" ∧ nm = "" then
            match nmGet m gid with
            | some grandchild =>
                if grandchild.ignored then axNodeToVFSNode child
                else axNodeToVFSNode grandchild
            | none => axNodeToVFSNode child
          else axNodeToVFSNode child
        | _ => axNodeToVFSNode child

/-- The `for (const childId of parent.childIds)` loop of `getChildVFSNodes`,
carrying `results` and `seenNames`. -/
def childLoop (m : NodeMap) (cids : List String) (results : List VFSNode)
    (seen : String → Nat) : List VFSNode :=
  match cids with
  | [] => results
  | cid :: rest =>
    match entryFor m cid with
    | none => childLoop m rest results seen
    | some v =>
      let p := deduplicateName v seen
      childLoop m rest (results ++ [p.1]) p.2

/-- `getChildVFSNodes` from `vfs_mapper.ts`. -/
def getChildVFSNodes (parentId : String) (m : NodeMap) : List VFSNode :=
  match nmGet m parentId with
  | none => []
  | some parent =>
    match parent.childIds with
    | none => []
    | some cids => childLoop m cids [] (fun _ => 0)

/-- The listing before deduplication: the sequence of entries the loop pushes,
in traversal order. -/
def rawChildVFSNodes (parentId : String) (m : NodeMap) : List VFSNode :=
  match nmGet m parentId with
  | none => []
  | some parent =>
    match parent.childIds with
    | none => []
    | some cids => cids.filterMap (entryFor m)

/-- The deduplication pass on its own: rename each entry according to the
`seenNames` state and thread the state left to right. -/
def dedupNames (l : List VFSNode) (seen : String → Nat) : List VFSNode :=
  match l with
  | [] => []
  | v :: rest =>
    let p := deduplicateName v seen
    p.1 :: dedupNames rest p.2

/-- `findChildByName` from `vfs_mapper.ts`. -/
def findChildByName (parentId : String) (nm : String) (m : NodeMap) :
    Option VFSNode :=
  (getChildVFSNodes parentId m).find? (fun c => c.name == nm)

/-- `resolveNodeFromCwd` from `vfs_mapper.ts`. -/
def resolveNodeFromCwd (cwd : List String) (m : NodeMap) : Option AXNode :=
  match cwd.getLast? with
  | none => none
  | some currentId => nmGet m currentId

/-! ## CDP client (`cdp_client.ts`) -/

/-- The response shape of the `Accessibility.getFullAXTree` CDP command. -/
structure CDPAXTreeResponse where
  nodes : List AXNode
deriving DecidableEq, Repr

/-- `getFullAXTree` from `cdp_client.ts`: one `Accessibility.getFullAXTree`
round-trip whose response is the parameter; its node list is returned as is. -/
def getFullAXTree (resp : CDPAXTreeResponse) : List AXNode := resp.nodes

/-! ## Shell kernel (`background/index.ts`) -/

/-- `ShellState` from `shared/types.ts`; `env` is a JS object modelled as an
insertion-ordered association list. -/
structure ShellState where
  cwd : List String
  cwdNames : List String
  attachedTabId : Option Nat
  env : List (String × String)
deriving DecidableEq, Repr

/-- The kernel's initial `state` value. -/
def initState : ShellState :=
  { cwd := []
    cwdNames := ["/"]
    attachedTabId := none
    env := [("SHELL", "/bin/agentshell"), ("TERM", "xterm-256color"),
            ("PS1", "agent@shell:$PWD$ ")] }

/-- JS truthiness test `!state.attachedTabId` (null and 0 are falsy). -/
def jsFalsyTab : Option Nat → Bool
  | none => true
  | some 0 => true
  | some (_ + 1) => false

/-- The guard of `ensureAttached`:
`!state.attachedTabId || nodeMap.size === 0`. -/
def ensureAttachedFails (s : ShellState) (m : NodeMap) : Bool :=
  jsFalsyTab s.attachedTabId || m.length == 0

/-- The message of the error thrown by `ensureAttached`. -/
def notAttachedMsg : String := "Not attached to a tab. Run \x27attach\x27 first."

/-- The message of the error thrown by `getCurrentNodeId` on an empty CWD. -/
def noCwdMsg : String := "No CWD set. Run \x27attach\x27 first."

/-- Outcome of one command handler.  `err` models a thrown `Error` (in every
modelled handler a throw happens before any state mutation, so no state is
carried); `ext` marks the point where execution reaches an asynchronous
CDP/Chrome round-trip, beyond which this model stops. -/
inductive HRes where
  | ok (out : String) (st : ShellState)
  | err (msg : String)
  | ext
deriving DecidableEq, Repr

/-- Observable outcome of `executeCommand`.  `crash` models the uncaught
`TypeError` when `parseCommandLine` returns no parts (`parts[0]` undefined). -/
inductive ExecOutcome where
  | done (out : String) (st : ShellState)
  | external (st : ShellState)
  | crash
deriving DecidableEq, Repr

/-- `parseCommandLine`: split on blanks outside quotes, quotes delimit and are
dropped. -/
def quoteChar : Char := Char.ofNat 34

def aposChar : Char := Char.ofNat 39

def pclGo : List Char → Option Char → List Char → List String
  | [], _, cur => if cur.isEmpty then [] else [String.mk cur.reverse]
  | c :: rest, some q, cur =>
      if c == q then pclGo rest none cur else pclGo rest (some q) (c :: cur)
  | c :: rest, none, cur =>
      if c == quoteChar || c == aposChar then pclGo rest (some c) cur
      else if c == ' ' || c == '\t' then
        if cur.isEmpty then pclGo rest none [] else String.mk cur.reverse :: pclGo rest none []
      else pclGo rest none (c :: cur)

def parseCommandLine (input : String) : List String := pclGo input.data none []

/-- JS object property update for the `env` record. -/
def envSet (e : List (String × String)) (k v : String) : List (String × String) :=
  if e.any (fun p => p.1 == k) then
    e.map (fun p => if p.1 == k then (k, v) else p)
  else e ++ [(k, v)]

/-- Directory rendering used by `ls` and `tree`. -/
def dirColor (nm : String) : String := "\x1b[1;34m" ++ nm ++ "/\x1b[0m"

/-- `INTERACTIVE_COLOR` from `background/index.ts`. -/
def INTERACTIVE_COLOR (node : VFSNode) : String :=
  match node.role with
  | "button" => "\x1b[1;32m" ++ node.name ++ "\x1b[0m"
  | "link" => "\x1b[1;35m" ++ node.name ++ "\x1b[0m"
  | "textbox" => "\x1b[1;33m" ++ node.name ++ "\x1b[0m"
  | "searchbox" => "\x1b[1;33m" ++ node.name ++ "\x1b[0m"
  | "combobox" => "\x1b[1;33m" ++ node.name ++ "\x1b[0m"
  | "checkbox" => "\x1b[1;36m" ++ node.name ++ "\x1b[0m"
  | "radio" => "\x1b[1;36m" ++ node.name ++ "\x1b[0m"
  | "switch" => "\x1b[1;36m" ++ node.name ++ "\x1b[0m"
  | _ => "\x1b[37m" ++ node.name ++ "\x1b[0m"

/-- One output line of `ls`. -/
def lsLine (longFormat : Bool) (child : VFSNode) : String :=
  if longFormat then
    let ty := if child.isDirectory then "d" else "-"
    let role := padEnd child.role 14
    let nm := if child.isDirectory then dirColor child.name else INTERACTIVE_COLOR child
    ty ++ " " ++ role ++ " " ++ nm
  else if child.isDirectory then dirColor child.name else INTERACTIVE_COLOR child

/-- `handleLs` (the unused `showAll` flag of the source is not modelled). -/
def handleLs (args : List String) (s : ShellState) (m : NodeMap) : HRes :=
  if ensureAttachedFails s m then .err notAttachedMsg
  else
    let longFormat := args.contains "-l" || args.contains "--long"
    match s.cwd.getLast? with
    | none => .err noCwdMsg
    | some currentId =>
      let children := getChildVFSNodes currentId m
      if children.length == 0 then .ok "\x1b[90m(empty directory)\x1b[0m" s
      else .ok (String.intercalate "\r\n" (children.map (lsLine longFormat))) s

/-- `cd` error output for a segment that does not resolve. -/
def cdNoSuchMsg (part : String) : String :=
  "\x1b[31mcd: " ++ part ++ ": No such directory\x1b[0m"

/-- `cd` error output for a segment that resolves to a file. -/
def cdNotDirMsg (part : String) : String :=
  "\x1b[31mcd: " ++ part ++ ": Not a directory\x1b[0m"

/-- The `..` handling shared by `handleCd`'s branches: pop one level unless at
root. -/
def popState (s : ShellState) : ShellState :=
  if s.cwd.length > 1 then
    { s with cwd := s.cwd.dropLast, cwdNames := s.cwdNames.dropLast }
  else s

/-- Push one resolved child onto the CWD. -/
def pushState (s : ShellState) (v : VFSNode) : ShellState :=
  { s with cwd := s.cwd ++ [v.axNodeId], cwdNames := s.cwdNames ++ [v.name] }

/-- JS `target.split("/")` on the character list. -/
def splitSlash : List Char → List Char → List (List Char)
  | [], cur => [cur.reverse]
  | c :: rest, cur =>
      if c == '/' then cur.reverse :: splitSlash rest [] else splitSlash rest (c :: cur)

/-- `target.split("/").filter(Boolean)` from `handleCd`. -/
def splitPath (target : String) : List String :=
  ((splitSlash target.data []).map String.mk).filter (fun p => p ≠ "")

/-- The `for (const part of pathParts)` loop of `handleCd`. -/
def cdLoop (m : NodeMap) (parts : List String) (s : ShellState) : HRes :=
  match parts with
  | [] => .ok "" s
  | part :: rest =>
    if part = ".." then cdLoop m rest (popState s)
    else
      match s.cwd.getLast? with
      | none => .err noCwdMsg
      | some currentId =>
        match findChildByName currentId part m with
        | none => .ok (cdNoSuchMsg part) s
        | some mtch =>
          if mtch.isDirectory then cdLoop m rest (pushState s mtch)
          else .ok (cdNotDirMsg part) s

/-- The `cd /` branch: reset CWD to the root node. -/
def cdRootCase (s : ShellState) (m : NodeMap) : HRes :=
  match findRootNode m with
  | some root => .ok "" { s with cwd := [root.nodeId], cwdNames := ["/"] }
  | none => .ok "" s

/-- `handleCd` from `background/index.ts`. -/
def handleCd (args : List String) (s : ShellState) (m : NodeMap) : HRes :=
  if ensureAttachedFails s m then .err notAttachedMsg
  else
    match args with
    | [] => cdRootCase s m
    | target :: _ =>
      if target = "/" then cdRootCase s m
      else if target = ".." then .ok "" (popState s)
      else cdLoop m (splitPath target) s

/-- `handlePwd` from `background/index.ts` (note: no attachment check). -/
def handlePwd (s : ShellState) : String :=
  if s.cwdNames.length ≤ 1 then "/"
  else "/" ++ String.intercalate "/" (s.cwdNames.drop 1)

/-- The metadata lines of `cat` (text-content fetch happens only for nodes
with a backend DOM id, which this model marks external). -/
def catLines (mtch : VFSNode) : List String :=
  ["\x1b[1;36m--- " ++ mtch.name ++ " ---\x1b[0m",
   "  \x1b[33mRole:\x1b[0m  " ++ mtch.role,
   "  \x1b[33mAXID:\x1b[0m  " ++ mtch.axNodeId] ++
  (match mtch.value with
   | some v => if v ≠ "" then ["  \x1b[33mValue:\x1b[0m " ++ v] else []
   | none => [])

/-- `handleCat` from `background/index.ts`. -/
def handleCat (args : List String) (s : ShellState) (m : NodeMap) : HRes :=
  if ensureAttachedFails s m then .err notAttachedMsg
  else
    match args with
    | [] => .ok "\x1b[31mUsage: cat <name>\x1b[0m" s
    | targetName :: _ =>
      match s.cwd.getLast? with
      | none => .err noCwdMsg
      | some currentId =>
        match findChildByName currentId targetName m with
        | none => .ok ("\x1b[31mcat: " ++ targetName ++ ": No such file\x1b[0m") s
        | some mtch =>
          match mtch.backendDOMNodeId with
          | some _ => .ext
          | none => .ok (String.intercalate "\r\n" (catLines mtch)) s

/-- `handleClick` from `background/index.ts` up to the first CDP call. -/
def handleClick (args : List String) (s : ShellState) (m : NodeMap) : HRes :=
  if ensureAttachedFails s m then .err notAttachedMsg
  else
    match args with
    | [] => .ok "\x1b[31mUsage: click <name>\x1b[0m" s
    | targetName :: _ =>
      match s.cwd.getLast? with
      | none => .err noCwdMsg
      | some currentId =>
        match findChildByName currentId targetName m with
        | none => .ok ("\x1b[31mclick: " ++ targetName ++ ": No such element\x1b[0m") s
        | some mtch =>
          match mtch.backendDOMNodeId with
          | none =>
            .ok ("\x1b[31mclick: " ++ targetName ++ ": No DOM node backing (AX-only node)\x1b[0m") s
          | some _ => .ext

/-- `handleFocus` from `background/index.ts` up to the first CDP call. -/
def handleFocus (args : List String) (s : ShellState) (m : NodeMap) : HRes :=
  if ensureAttachedFails s m then .err notAttachedMsg
  else
    match args with
    | [] => .ok "\x1b[31mUsage: focus <name>\x1b[0m" s
    | targetName :: _ =>
      match s.cwd.getLast? with
      | none => .err noCwdMsg
      | some currentId =>
        match findChildByName currentId targetName m with
        | none => .ok ("\x1b[31mfocus: " ++ targetName ++ ": No such element\x1b[0m") s
        | some mtch =>
          match mtch.backendDOMNodeId with
          | none => .ok ("\x1b[31mfocus: " ++ targetName ++ ": No DOM node backing\x1b[0m") s
          | some _ => .ext

/-- `handleType` from `background/index.ts` up to the CDP call. -/
def handleType (args : List String) (s : ShellState) (m : NodeMap) : HRes :=
  if ensureAttachedFails s m then .err notAttachedMsg
  else
    match args with
    | [] => .ok "\x1b[31mUsage: type <text>\x1b[0m" s
    | _ => .ext

/-- The filter predicate of `handleGrep`. -/
def grepMatches (pattern : String) (c : VFSNode) : Bool :=
  strContains (strLower c.name) pattern || strContains (strLower c.role) pattern ||
    (match c.value with
     | some v => v ≠ "" && strContains (strLower v) pattern
     | none => false)

/-- `handleGrep` from `background/index.ts`. -/
def handleGrep (args : List String) (s : ShellState) (m : NodeMap) : HRes :=
  if ensureAttachedFails s m then .err notAttachedMsg
  else
    match args with
    | [] => .ok "\x1b[31mUsage: grep <pattern>\x1b[0m" s
    | a :: _ =>
      let pattern := strLower a
      match s.cwd.getLast? with
      | none => .err noCwdMsg
      | some currentId =>
        let children := getChildVFSNodes currentId m
        let ms := children.filter (grepMatches pattern)
        if ms.length == 0 then
          .ok ("\x1b[33mNo matches for \x27" ++ pattern ++ "\x27\x1b[0m") s
        else
          .ok (String.intercalate "\r\n" (ms.map (fun c =>
            (if c.isDirectory then "\x1b[1;34m📁\x1b[0m " else "\x1b[37m📄\x1b[0m ") ++
              c.name ++ " \x1b[90m(" ++ c.role ++ ")\x1b[0m"))) s

/-- `buildTreeLines`, indexed by remaining depth (`maxDepth - depth`). -/
def buildTreeLines (m : NodeMap) (parentId : String) (pre : String) :
    Nat → List String
  | 0 => []
  | rem + 1 =>
    let children := getChildVFSNodes parentId m
    children.enum.flatMap (fun pc =>
      let isLast := pc.1 == children.length - 1
      let connector := if isLast then "└── " else "├── "
      let childPre := if isLast then "    " else "│   "
      let display := if pc.2.isDirectory then dirColor pc.2.name else INTERACTIVE_COLOR pc.2
      (pre ++ connector ++ display) ::
        (if pc.2.isDirectory then buildTreeLines m pc.2.axNodeId (pre ++ childPre) rem
         else []))

/-- `handleTree` from `background/index.ts` (a non-numeric depth argument,
JS `NaN`, is not modelled). -/
def handleTree (args : List String) (s : ShellState) (m : NodeMap) : HRes :=
  if ensureAttachedFails s m then .err notAttachedMsg
  else
    let maxDepth := match args with
      | [] => 2
      | a :: _ => (a.toNat?).getD 2
    match s.cwd.getLast? with
    | none => .err noCwdMsg
    | some currentId =>
      let rootName := match nmGet m currentId with
        | some n => generateNodeName n
        | none => "/"
      .ok (String.intercalate "\r\n"
        (("\x1b[1;34m" ++ rootName ++ "/\x1b[0m") ::
          buildTreeLines m currentId "" maxDepth)) s

/-- `handleEnv` from `background/index.ts`. -/
def handleEnv (s : ShellState) : String :=
  String.intercalate "\r\n"
    (s.env.map (fun p => "\x1b[33m" ++ p.1 ++ "\x1b[0m=" ++ p.2))

/-- `handleExport` from `background/index.ts`. -/
def handleExport (args : List String) (s : ShellState) : HRes :=
  match args with
  | [] => .ok "\x1b[31mUsage: export KEY=VALUE\x1b[0m" s
  | _ =>
    let joined := String.intercalate " " args
    let pre := joined.data.takeWhile (fun c => c ≠ '=')
    if pre.length == joined.data.length then .ok "\x1b[31mUsage: export KEY=VALUE\x1b[0m" s
    else
      let key := jsTrim (String.mk pre)
      let value := jsTrim (String.mk (joined.data.drop (pre.length + 1)))
      .ok ("\x1b[32m✓ " ++ key ++ "=" ++ value ++ "\x1b[0m")
        { s with env := envSet s.env key value }

/-- `handleDetach` up to the CDP detach call: in the unattached case only a
notice is returned. -/
def handleDetachGuard (s : ShellState) : HRes :=
  if jsFalsyTab s.attachedTabId then .ok "\x1b[33mNot attached to any tab.\x1b[0m" s
  else .ext

/-- `handleRefresh` up to the tree re-fetch. -/
def handleRefreshGuard (s : ShellState) : HRes :=
  if jsFalsyTab s.attachedTabId then
    .ok "\x1b[31mNot attached. Run \x27attach\x27 first.\x1b[0m" s
  else .ext

/-- `handleWhoami` up to the page-URL / cookie round-trips. -/
def handleWhoamiGuard (s : ShellState) : HRes :=
  if jsFalsyTab s.attachedTabId then
    .ok "\x1b[31mNot attached. Run \x27attach\x27 first.\x1b[0m" s
  else .ext

/-- `handleHelp`'s fixed output. -/
def helpText : String :=
  String.intercalate "\r\n"
    ["\x1b[1;36mAgentShell — DOM as a Filesystem\x1b[0m",
     "",
     "\x1b[1;33mNavigation:\x1b[0m",
     "  \x1b[32mattach\x1b[0m          Connect to the active browser tab",
     "  \x1b[32mdetach\x1b[0m          Disconnect from the current tab",
     "  \x1b[32mrefresh\x1b[0m         Re-fetch the Accessibility Tree",
     "  \x1b[32mls\x1b[0m              List children of the current node",
     "  \x1b[32mcd <name>\x1b[0m       Enter a child node (directory)",
     "  \x1b[32mcd ..\x1b[0m           Go up one level",
     "  \x1b[32mcd /\x1b[0m            Go to the root",
     "  \x1b[32mpwd\x1b[0m             Show current path",
     "  \x1b[32mtree\x1b[0m            Show tree view of current node",
     "",
     "\x1b[1;33mInspection:\x1b[0m",
     "  \x1b[32mcat <name>\x1b[0m      Read text content of a node",
     "  \x1b[32mgrep <pattern>\x1b[0m  Search children for matching names",
     "",
     "\x1b[1;33mInteraction:\x1b[0m",
     "  \x1b[32mclick <name>\x1b[0m    Click an element",
     "  \x1b[32mfocus <name>\x1b[0m    Focus an input element",
     "  \x1b[32mtype <text>\x1b[0m     Type text into the focused element",
     "",
     "\x1b[1;33mSystem:\x1b[0m",
     "  \x1b[32mwhoami\x1b[0m          Check authentication cookies",
     "  \x1b[32menv\x1b[0m             Show environment variables",
     "  \x1b[32mexport K=V\x1b[0m      Set an environment variable",
     "  \x1b[32mclear\x1b[0m           Clear the terminal",
     "  \x1b[32mhelp\x1b[0m            Show this help message",
     ""]

/-- The default branch of `executeCommand`'s switch. -/
def cmdNotFoundMsg (cmd : String) : String :=
  "\x1b[31magentshell: " ++ cmd ++ ": command not found\x1b[0m\r\nType \x27help\x27 for available commands."

/-- Rendering of a caught handler exception at the command boundary. -/
def errorRender (msg : String) : String := "\x1b[31mError: " ++ msg ++ "\x1b[0m"

/-- `executeCommand` from `background/index.ts`: trim, parse, dispatch, catch.
Commands whose handlers reach an asynchronous CDP/Chrome call in the given
state yield `external`. -/
def executeCommand (raw : String) (s : ShellState) (m : NodeMap) : ExecOutcome :=
  let trimmed := jsTrim raw
  if trimmed = "" then .done "" s
  else
    match parseCommandLine trimmed with
    | [] => .crash
    | c :: args =>
      let cmd := strLower c
      let r : HRes :=
        if cmd = "help" then .ok helpText s
        else if cmd = "attach" then .ext
        else if cmd = "detach" then handleDetachGuard s
        else if cmd = "ls" then handleLs args s m
        else if cmd = "cd" then handleCd args s m
        else if cmd = "pwd" then .ok (handlePwd s) s
        else if cmd = "cat" then handleCat args s m
        else if cmd = "click" then handleClick args s m
        else if cmd = "type" then handleType args s m
        else if cmd = "focus" then handleFocus args s m
        else if cmd = "grep" then handleGrep args s m
        else if cmd = "whoami" then handleWhoamiGuard s
        else if cmd = "env" then .ok (handleEnv s) s
        else if cmd = "export" then handleExport args s
        else if cmd = "tree" then handleTree args s m
        else if cmd = "refresh" then handleRefreshGuard s
        else if cmd = "clear" then .ok "\x1b[2J\x1b[H" s
        else .ok (cmdNotFoundMsg cmd) s
      match r with
      | .ok out st => .done out st
      | .err msg => .done (errorRender msg) s
      | .ext => .external s

/-- The state effect of a successful `handleAttach`: the CDP attach succeeded
for tab `tabId` and `getFullAXTree` returned `axNodes`. -/
def doAttach (tabId : Nat) (axNodes : List AXNode) (s : ShellState) :
    ShellState × NodeMap :=
  let m := buildNodeMap axNodes
  let s₁ := { s with attachedTabId := some tabId }
  match findRootNode m with
  | some root => ({ s₁ with cwd := [root.nodeId], cwdNames := ["/"] }, m)
  | none => (s₁, m)

/-- The state effect of `handleDetach`. -/
def doDetach (s : ShellState) (m : NodeMap) : ShellState × NodeMap :=
  if jsFalsyTab s.attachedTabId then (s, m)
  else ({ s with attachedTabId := none, cwd := [], cwdNames := ["/"] }, [])

/-- The state effect of a successful `handleRefresh`: `getFullAXTree`
returned `axNodes`. -/
def doRefresh (axNodes : List AXNode) (s : ShellState) (m : NodeMap) :
    ShellState × NodeMap :=
  if jsFalsyTab s.attachedTabId then (s, m)
  else
    let m' := buildNodeMap axNodes
    match findRootNode m' with
    | some root => ({ s with cwd := [root.nodeId], cwdNames := ["/"] }, m')
    | none => (s, m')

/-! ## General lemmas about the mapper -/

theorem strEq_of_data {x y : String} (h : x.data = y.data) : x = y :=
  congrArg String.mk h

theorem strData_append (a b : String) : (a ++ b).data = a.data ++ b.data := rfl

/-- The name `deduplicateName` assigns when the base has already been seen
`c` times. -/
def renamedName (b : String) (c : Nat) : String :=
  if c > 0 then b ++ "_" ++ jsNatRepr (c + 1) else b

theorem appendUnderscore_length (b x : String) :
    ((b ++ "_") ++ x).data.length = b.data.length + 1 + x.data.length := by
  have h1 : "_".data.length = 1 := rfl
  rw [strData_append, strData_append, List.length_append, List.length_append, h1]

theorem renamedName_ne_of_ne {b : String} {c₁ c₂ : Nat} (h : c₁ ≠ c₂) :
    renamedName b c₁ ≠ renamedName b c₂ := by
  intro he
  unfold renamedName at he
  by_cases h₁ : c₁ > 0 <;> by_cases h₂ : c₂ > 0 <;> simp [h₁, h₂] at he
  · have hd := congrArg String.data he
    rw [strData_append, strData_append] at hd
    have h2 := strEq_of_data (List.append_cancel_left hd)
    have h3 := jsNatRepr_inj h2
    omega
  · have hlen := congrArg (fun s : String => s.data.length) he
    simp only [appendUnderscore_length] at hlen
    omega
  · have hlen := congrArg (fun s : String => s.data.length) he
    simp only [appendUnderscore_length] at hlen
    omega
  · omega

theorem deduplicateName_fst (v : VFSNode) (seen : String → Nat) :
    (deduplicateName v seen).1 = { v with name := renamedName v.name (seen v.name) } := by
  by_cases h : seen v.name > 0 <;> simp [deduplicateName, renamedName, h]

theorem deduplicateName_snd (v : VFSNode) (seen : String → Nat) :
    (deduplicateName v seen).2 =
      fun k => if k = v.name then seen v.name + 1 else seen k := rfl

/-- The listing loop is the pre-deduplication entry sequence fed through the
deduplication pass, appended to the accumulator. -/
theorem childLoop_eq_dedupNames (m : NodeMap) (cids : List String) :
    ∀ (results : List VFSNode) (seen : String → Nat),
      childLoop m cids results seen =
        results ++ dedupNames (cids.filterMap (entryFor m)) seen := by
  induction cids with
  | nil => intro results seen; simp [childLoop, dedupNames]
  | cons cid rest ih =>
    intro results seen
    cases h : entryFor m cid with
    | none => simp [childLoop, h, ih]
    | some v => simp [childLoop, h, ih, dedupNames]

/-- `getChildVFSNodes` is the raw listing with names deduplicated. -/
theorem getChildVFSNodes_eq_dedup (parentId : String) (m : NodeMap) :
    getChildVFSNodes parentId m =
      dedupNames (rawChildVFSNodes parentId m) (fun _ => 0) := by
  unfold getChildVFSNodes rawChildVFSNodes
  cases nmGet m parentId with
  | none => simp [dedupNames]
  | some parent =>
    cases hc : parent.childIds with
    | none => simp [hc, dedupNames]
    | some cids =>
      simp only [hc]
      simpa using childLoop_eq_dedupNames m cids [] (fun _ => 0)

theorem dedupNames_length (l : List VFSNode) (seen : String → Nat) :
    (dedupNames l seen).length = l.length := by
  induction l generalizing seen with
  | nil => rfl
  | cons v rest ih => simp [dedupNames, ih]

/-- Position-wise characterization of the deduplication pass: the entry at
position `i` keeps its base name renamed according to how many entries with
the same base precede it (plus the incoming `seenNames` count). -/
theorem dedupNames_getD (l : List VFSNode) (seen : String → Nat) (i : Nat)
    (hi : i < l.length) :
    (dedupNames l seen).getD i vfsDefault =
      { l.getD i vfsDefault with
        name := renamedName (l.getD i vfsDefault).name
          (seen (l.getD i vfsDefault).name +
            (l.take i).countP (fun u => u.name == (l.getD i vfsDefault).name)) } := by
  induction l generalizing seen i with
  | nil => simp at hi
  | cons v rest ih =>
    cases i with
    | zero =>
      simp only [dedupNames, List.getD_cons_zero, List.take_zero, List.countP_nil,
        Nat.add_zero]
      exact deduplicateName_fst v seen
    | succ i =>
      have hi' : i < rest.length := by
        simp only [List.length_cons] at hi
        omega
      simp only [dedupNames, List.getD_cons_succ, List.take_succ_cons, List.countP_cons]
      rw [ih _ _ hi']
      simp only [deduplicateName_snd]
      have hcongr : ∀ (x : VFSNode) (bn : String) (n₁ n₂ : Nat), n₁ = n₂ →
          ({ x with name := renamedName bn n₁ } : VFSNode) =
            { x with name := renamedName bn n₂ } := by
        intro x bn n₁ n₂ hn
        rw [hn]
      generalize rest.getD i vfsDefault = x
      apply hcongr
      simp only [beq_iff_eq]
      by_cases hvb : x.name = v.name
      · simp [hvb]
        omega
      · have hvb' : ¬ v.name = x.name := fun hh => hvb hh.symm
        simp [hvb, hvb']

theorem getChildVFSNodes_length (parentId : String) (m : NodeMap) :
    (getChildVFSNodes parentId m).length = (rawChildVFSNodes parentId m).length := by
  rw [getChildVFSNodes_eq_dedup, dedupNames_length]

theorem countP_take_lt (l : List VFSNode) (b : String) (i j : Nat) (hij : i < j)
    (hj : j ≤ l.length) (hb : (l.getD i vfsDefault).name = b) :
    (l.take i).countP (fun u => u.name == b) <
      (l.take j).countP (fun u => u.name == b) := by
  have hi : i < l.length := lt_of_lt_of_le hij hj
  have hgd : l.getD i vfsDefault = l[i] := List.getD_eq_getElem l vfsDefault hi
  have hsucc : l.take (i + 1) = l.take i ++ [l[i]] := by
    rw [List.take_succ, List.getElem?_eq_getElem hi]
    rfl
  have hstep : (l.take (i + 1)).countP (fun u => u.name == b) =
      (l.take i).countP (fun u => u.name == b) + 1 := by
    rw [hsucc, List.countP_append]
    have hnb : (l[i].name == b) = true := by
      rw [← hgd, hb]
      simp
    simp [List.countP_cons, hnb]
  have hpre : l.take (i + 1) <+: l.take j := by
    have := List.take_prefix (i + 1) (l.take j)
    rwa [List.take_take, Nat.min_eq_left (by omega)] at this
  have hle : (l.take (i + 1)).countP (fun u => u.name == b) ≤
      (l.take j).countP (fun u => u.name == b) :=
    hpre.countP_le _
  omega

/-! ## Concrete nodes and maps used in witnesses and counterexamples -/

def axButton (id nm : String) : AXNode :=
  { nodeId := id, role := some "button", name := some nm }

def axGeneric (id : String) (nm : Option String) (cs : Option (List String)) : AXNode :=
  { nodeId := id, role := some "generic", name := nm, childIds := cs }

/-- Scenario B: a container with two children `{button, "Submit"}`. -/
def mapScenarioB : NodeMap :=
  [("p", axGeneric "p" (some "par") (some ["b1", "b2"])),
   ("b1", axButton "b1" "Submit"),
   ("b2", axButton "b2" "Submit")]

/-- Three siblings whose generated base names are `x`, `x_2`, `x`. -/
def mapDupBase : NodeMap :=
  [("p", axGeneric "p" (some "par") (some ["a", "b", "c"])),
   ("a", axGeneric "a" (some "x") none),
   ("b", axGeneric "b" (some "x 2") none),
   ("c", axGeneric "c" (some "x") none)]

/-- C2: deduplication is a single left-to-right pass over the listing in
traversal order: an entry whose base name has no earlier occurrence keeps the
bare base name, and the occurrence preceded by `c ≥ 1` equal bases becomes
`base_(c+1)` — so the k sibling entries sharing one base read
`base, base_2, …, base_k` in order of appearance. -/
theorem dedup_first_bare_later_suffixed (m : NodeMap) (parentId : String) (i : Nat)
    (hi : i < (rawChildVFSNodes parentId m).length) :
    ((getChildVFSNodes parentId m).getD i vfsDefault).name =
      (if ((rawChildVFSNodes parentId m).take i).countP
            (fun u => u.name == ((rawChildVFSNodes parentId m).getD i vfsDefault).name) = 0
       then ((rawChildVFSNodes parentId m).getD i vfsDefault).name
       else ((rawChildVFSNodes parentId m).getD i vfsDefault).name ++ "_" ++
         jsNatRepr (((rawChildVFSNodes parentId m).take i).countP
            (fun u => u.name == ((rawChildVFSNodes parentId m).getD i vfsDefault).name) + 1)) := by
  rw [getChildVFSNodes_eq_dedup, dedupNames_getD _ _ _ hi]
  simp only [renamedName, Nat.zero_add]
  generalize ((rawChildVFSNodes parentId m).take i).countP
      (fun u => u.name == ((rawChildVFSNodes parentId m).getD i vfsDefault).name) = c
  by_cases hc : c = 0 <;> simp [hc]

/-- Witness for C2 at Scenario B: the second `Submit` button is listed as
`submit_btn_2`. -/
theorem dedup_first_bare_later_suffixed_witness :
    ((getChildVFSNodes "p" mapScenarioB).getD 1 vfsDefault).name = "submit_btn_2" := by
  have h := dedup_first_bare_later_suffixed mapScenarioB "p" 1 (by decide)
  rw [h]
  decide

/-- C3 counterexample: with sibling base names `x`, `x_2`, `x` the final
listing is `x, x_2, x_2` — the display names of one listing are NOT pairwise
distinct, because the counter is keyed on the pre-deduplication base name
only. -/
theorem listing_names_not_distinct_cx :
    ((getChildVFSNodes "p" mapDupBase).map (fun v => v.name)) = ["x", "x_2", "x_2"] ∧
    ¬ ((getChildVFSNodes "p" mapDupBase).map (fun v => v.name)).Nodup := by
  exact ⟨by decide, by decide⟩

/-- C3 amended: in one listing, entries that share the same pre-deduplication
base name always receive pairwise distinct display names; distinctness across
different base names is not guaranteed (see the counterexample). -/
theorem listing_same_base_names_distinct (m : NodeMap) (parentId : String)
    (i j : Nat) (hi : i < (rawChildVFSNodes parentId m).length)
    (hj : j < (rawChildVFSNodes parentId m).length) (hij : i ≠ j)
    (hb : ((rawChildVFSNodes parentId m).getD i vfsDefault).name =
          ((rawChildVFSNodes parentId m).getD j vfsDefault).name) :
    ((getChildVFSNodes parentId m).getD i vfsDefault).name ≠
      ((getChildVFSNodes parentId m).getD j vfsDefault).name := by
  rw [getChildVFSNodes_eq_dedup, dedupNames_getD _ _ _ hi, dedupNames_getD _ _ _ hj]
  simp only [Nat.zero_add]
  rw [hb]
  apply renamedName_ne_of_ne
  rcases Nat.lt_or_ge i j with hlt | hge
  · exact Nat.ne_of_lt (countP_take_lt _ _ i j hlt (le_of_lt hj) hb)
  · have hlt : j < i := by omega
    exact (Nat.ne_of_lt (countP_take_lt _ _ j i hlt (le_of_lt hi) rfl)).symm

/-- Witness for the amended C3 at Scenario B: the two `submit_btn` bases end
with distinct display names. -/
theorem listing_same_base_names_distinct_witness :
    ((getChildVFSNodes "p" mapScenarioB).getD 0 vfsDefault).name ≠
      ((getChildVFSNodes "p" mapScenarioB).getD 1 vfsDefault).name :=
  listing_same_base_names_distinct mapScenarioB "p" 0 1 (by decide) (by decide)
    (by decide) (by decide)

theorem sanitize_empty : sanitize "" = "" := rfl

/-- A node with an unmapped role and no usable name or description. -/
def axGenericBare : AXNode := { nodeId := "7", role := some "generic" }

/-- C1 counterexample: for a node with role `generic` (unmapped in the suffix
table), empty name and description, `generateNodeName` yields `generic_7`,
not the bare role string `generic` — the raw id is appended although the role
fallback is non-empty. -/
theorem generateNodeName_role_fallback_cx :
    generateNodeName axGenericBare = "generic_7" ∧
    generateNodeName axGenericBare ≠ "generic" :=
  ⟨by decide, by decide⟩

/-- C1 amended: the sanitized accessible name is the base, falling back to the
sanitized description and then to the role string; the role-suffix table is
applied to name- and description-based names (unmapped roles get no suffix
there), while in the role fallback a mapped role gets its suffix and an
unmapped role always gets `_` and the raw node id appended. -/
theorem generateNodeName_fallback (node : AXNode) :
    (sanitize (node.name.getD "") ≠ "" →
      generateNodeName node =
        sanitize (node.name.getD "") ++ roleSuffix (node.role.getD "unknown")) ∧
    (sanitize (node.name.getD "") = "" → sanitize (node.description.getD "") ≠ "" →
      generateNodeName node =
        sanitize (node.description.getD "") ++ roleSuffix (node.role.getD "unknown")) ∧
    (sanitize (node.name.getD "") = "" → sanitize (node.description.getD "") = "" →
      roleSuffix (node.role.getD "unknown") ≠ "" →
      generateNodeName node =
        node.role.getD "unknown" ++ roleSuffix (node.role.getD "unknown")) ∧
    (sanitize (node.name.getD "") = "" → sanitize (node.description.getD "") = "" →
      roleSuffix (node.role.getD "unknown") = "" →
      generateNodeName node = node.role.getD "unknown" ++ "_" ++ node.nodeId) := by
  have hne : ∀ s : String, sanitize s ≠ "" → s ≠ "" := by
    intro s h hs
    rw [hs] at h
    exact h sanitize_empty
  refine ⟨?_, ?_, ?_, ?_⟩
  · intro h
    simp [generateNodeName, h, hne _ h]
  · intro h1 h2
    simp [generateNodeName, h1, h2, hne _ h2]
  · intro h1 h2 h3
    simp [generateNodeName, h1, h2, h3]
  · intro h1 h2 h3
    simp [generateNodeName, h1, h2, h3, String.append_assoc]

/-- Witness for the amended C1: a `{button, "Submit"}` node is named via the
sanitized name plus the button suffix, giving `submit_btn`. -/
theorem generateNodeName_fallback_witness :
    generateNodeName (axButton "1" "Submit") = "submit_btn" := by
  have h := (generateNodeName_fallback (axButton "1" "Submit")).1 (by decide)
  rw [h]
  decide

/-- A node with role `none` and ignored flag `false`. -/
def axNoneRole : AXNode := { nodeId := "n", role := some "none" }

/-- A parent whose only child has role `none`. -/
def mapNoneRole : NodeMap :=
  [("p", axGeneric "p" (some "par") (some ["n"])), ("n", axNoneRole)]

/-- C10: a child whose role is `none` or `Ignored` is never convertible to a
VFS entry, contributes nothing for its child id, is skipped by the listing
loop, and drops out of the pre-deduplication listing at any position — even
when its `ignored` flag is false. -/
theorem role_none_ignored_omitted (m : NodeMap) (cid : String) (child : AXNode)
    (cids : List String) (results : List VFSNode) (seen : String → Nat)
    (hc : nmGet m cid = some child) (hig : child.ignored = false)
    (hrole : child.role.getD "" = "none" ∨ child.role.getD "" = "Ignored") :
    axNodeToVFSNode child = none ∧ entryFor m cid = none ∧
    childLoop m (cid :: cids) results seen = childLoop m cids results seen ∧
    ∀ (pre post : List String),
      (pre ++ cid :: post).filterMap (entryFor m) =
        (pre ++ post).filterMap (entryFor m) := by
  have h1 : axNodeToVFSNode child = none := by
    rcases hrole with h | h <;> simp [axNodeToVFSNode, h]
  have h2 : entryFor m cid = none := by
    rcases hrole with h | h <;> simp [entryFor, hc, hig, h]
  refine ⟨h1, h2, by simp [childLoop, h2], ?_⟩
  intro pre post
  simp [List.filterMap_append, List.filterMap_cons, h2]

/-- Witness for C10 at a concrete map with a role-`none`, non-ignored child. -/
theorem role_none_ignored_omitted_witness :
    axNodeToVFSNode axNoneRole = none ∧ entryFor mapNoneRole "n" = none ∧
    childLoop mapNoneRole ["n"] [] (fun _ => 0) =
      childLoop mapNoneRole [] [] (fun _ => 0) ∧
    ∀ (pre post : List String),
      (pre ++ "n" :: post).filterMap (entryFor mapNoneRole) =
        (pre ++ post).filterMap (entryFor mapNoneRole) :=
  role_none_ignored_omitted mapNoneRole "n" axNoneRole [] [] (fun _ => 0)
    (by decide) (by decide) (Or.inl (by decide))

/-- A generic unnamed wrapper whose single child id does not resolve in the
map (its child was ignored and hence dropped by `buildNodeMap`). -/
def mapDanglingWrapper : NodeMap :=
  [("p", axGeneric "p" (some "par") (some ["w"])),
   ("w", axGeneric "w" none (some ["g"]))]

/-- C4 counterexample: a child with role `generic`, empty accessible name and
exactly one child whose grandchild does NOT resolve in the NodeMap is not
elided — the wrapper itself appears in the listing (as `generic_w`), so the
elision rule does not hold for every such wrapper. -/
theorem flatten_wrapper_kept_cx :
    (getChildVFSNodes "p" mapDanglingWrapper).map (fun v => v.axNodeId) = ["w"] ∧
    (getChildVFSNodes "p" mapDanglingWrapper).map (fun v => v.name) = ["generic_w"] :=
  ⟨by decide, by decide⟩

/-- C4 amended: a child with role `generic`, empty accessible name and exactly
one child is elided and its grandchild is substituted at the wrapper's
position, provided the grandchild resolves in the NodeMap, is not ignored and
converts to a VFS entry; the substituted entry is the grandchild itself
(`v.axNodeId = g.nodeId`), so a single listing call elides exactly one level.
If the grandchild does not resolve (or is ignored), the wrapper itself is
listed (see the counterexample). -/
theorem flatten_substitutes_grandchild (m : NodeMap) (parentId : String)
    (parent w g : AXNode) (pre post : List String) (wid gid : String) (v : VFSNode)
    (hp : nmGet m parentId = some parent)
    (hcids : parent.childIds = some (pre ++ wid :: post))
    (hw : nmGet m wid = some w) (hwig : w.ignored = false)
    (hwrole : w.role.getD "" = "generic") (hwname : w.name.getD "" = "")
    (hwc : w.childIds = some [gid])
    (hg : nmGet m gid = some g) (hgig : g.ignored = false)
    (hv : axNodeToVFSNode g = some v) :
    entryFor m wid = some v ∧ v.axNodeId = g.nodeId ∧
    rawChildVFSNodes parentId m =
      pre.filterMap (entryFor m) ++ v :: post.filterMap (entryFor m) ∧
    getChildVFSNodes parentId m =
      dedupNames (pre.filterMap (entryFor m) ++ v :: post.filterMap (entryFor m))
        (fun _ => 0) := by
  have he : entryFor m wid = some v := by
    simp [entryFor, hw, hwig, hwrole, hwname, hwc, hg, hgig, hv]
  have hid : v.axNodeId = g.nodeId := by
    unfold axNodeToVFSNode at hv
    by_cases hgr : (g.role.getD "" = "none" ∨ g.role.getD "" = "Ignored")
    · rw [if_pos hgr] at hv
      cases hv
    · rw [if_neg hgr] at hv
      cases hv
      rfl
  have hraw : rawChildVFSNodes parentId m =
      pre.filterMap (entryFor m) ++ v :: post.filterMap (entryFor m) := by
    unfold rawChildVFSNodes
    simp only [hp, hcids]
    simp [List.filterMap_append, List.filterMap_cons, he]
  exact ⟨he, hid, hraw, by rw [getChildVFSNodes_eq_dedup, hraw]⟩

/-- Scenario C: an unnamed generic wrapper around a `{button, "Go"}` node. -/
def mapScenarioC : NodeMap :=
  [("p", axGeneric "p" (some "par") (some ["w"])),
   ("w", axGeneric "w" none (some ["g"])),
   ("g", axButton "g" "Go")]

/-- The VFS entry generated for the `Go` button. -/
def goBtnVFS : VFSNode :=
  { axNodeId := "g", backendDOMNodeId := none, name := "go_btn", role := "button",
    value := none, isDirectory := false }

/-- Witness for the amended C4 at Scenario C: the wrapper is elided and the
button appears directly in the parent's listing as `go_btn`. -/
theorem flatten_substitutes_grandchild_witness :
    entryFor mapScenarioC "w" = some goBtnVFS ∧ goBtnVFS.axNodeId = "g" ∧
    rawChildVFSNodes "p" mapScenarioC =
      List.filterMap (entryFor mapScenarioC) [] ++
        goBtnVFS :: List.filterMap (entryFor mapScenarioC) [] ∧
    getChildVFSNodes "p" mapScenarioC =
      dedupNames
        (List.filterMap (entryFor mapScenarioC) [] ++
          goBtnVFS :: List.filterMap (entryFor mapScenarioC) []) (fun _ => 0) :=
  flatten_substitutes_grandchild mapScenarioC "p"
    (axGeneric "p" (some "par") (some ["w"])) (axGeneric "w" none (some ["g"]))
    (axButton "g" "Go") [] [] "w" "g" goBtnVFS
    (by decide) (by decide) (by decide) (by decide) (by decide) (by decide)
    (by decide) (by decide) (by decide) (by decide)

/-- A successful run of `handleCd`'s segment loop: every segment resolves to a
directory (with `..` popping), yielding the final state. -/
def cdSegsOk (m : NodeMap) : List String → ShellState → Option ShellState
  | [], s => some s
  | part :: rest, s =>
    if part = ".." then cdSegsOk m rest (popState s)
    else
      match s.cwd.getLast? with
      | none => none
      | some currentId =>
        match findChildByName currentId part m with
        | none => none
        | some v => if v.isDirectory then cdSegsOk m rest (pushState s v) else none

theorem cdLoop_append_ok (m : NodeMap) :
    ∀ (parts₁ : List String) (s s' : ShellState),
      cdSegsOk m parts₁ s = some s' →
      ∀ (parts₂ : List String), cdLoop m (parts₁ ++ parts₂) s = cdLoop m parts₂ s' := by
  intro parts₁
  induction parts₁ with
  | nil =>
    intro s s' h parts₂
    simp [cdSegsOk] at h
    rw [h]
    rfl
  | cons part rest ih =>
    intro s s' h parts₂
    by_cases hdd : part = ".."
    · simp only [cdSegsOk, if_pos hdd] at h
      simp only [List.cons_append, cdLoop, if_pos hdd]
      exact ih _ _ h parts₂
    · simp only [cdSegsOk, if_neg hdd] at h
      cases hlast : s.cwd.getLast? with
      | none =>
        simp only [hlast] at h
        cases h
      | some currentId =>
        simp only [hlast] at h
        cases hfind : findChildByName currentId part m with
        | none =>
          simp only [hfind] at h
          cases h
        | some v =>
          simp only [hfind] at h
          by_cases hdir : v.isDirectory
          · rw [if_pos hdir] at h
            simp only [List.cons_append, cdLoop, if_neg hdd, hlast, hfind, if_pos hdir]
            exact ih _ _ h parts₂
          · rw [if_neg hdir] at h
            cases h

/-- C5: in a multi-segment `cd`, the first segment that fails to resolve to an
existing directory aborts the command with the `No such directory` /
`Not a directory` output, while every segment resolved before it remains
applied to the CWD — the returned state is the partially navigated one, not
the original. -/
theorem cd_partial_navigation_kept (m : NodeMap) (s s' : ShellState)
    (target : String) (parts₁ parts₂ : List String) (p : String) (cid : String)
    (hatt : ensureAttachedFails s m = false)
    (hne : target ≠ "/") (hnd : target ≠ "..")
    (hsplit : splitPath target = parts₁ ++ p :: parts₂)
    (hpre : cdSegsOk m parts₁ s = some s')
    (hp : p ≠ "..")
    (hcid : s'.cwd.getLast? = some cid)
    (hfail : findChildByName cid p m = none ∨
      ∃ v, findChildByName cid p m = some v ∧ v.isDirectory = false) :
    handleCd [target] s m =
      .ok (match findChildByName cid p m with
           | none => cdNoSuchMsg p
           | some _ => cdNotDirMsg p) s' := by
  unfold handleCd
  simp only [hatt, Bool.false_eq_true, if_false, if_neg hne, if_neg hnd]
  rw [hsplit, cdLoop_append_ok m parts₁ s s' hpre (p :: parts₂)]
  unfold cdLoop
  rw [if_neg hp]
  rcases hfail with h | ⟨v, hv, hdir⟩
  · simp only [hcid, h]
  · simp only [hcid, hv, hdir, Bool.false_eq_true, if_false]

/-- Scenario D fixtures: a root whose only child is the `navigation` node
named `Main`, which itself has no children. -/
def axRootD : AXNode :=
  { nodeId := "r", role := some "RootWebArea", name := some "Doc",
    childIds := some ["m1"] }

def axNavD : AXNode :=
  { nodeId := "m1", role := some "navigation", name := some "Main",
    childIds := some [] }

def mapScenarioD : NodeMap := [("r", axRootD), ("m1", axNavD)]

def stateScenarioD : ShellState :=
  { cwd := ["r"], cwdNames := ["/"], attachedTabId := some 1, env := [] }

def stateScenarioDAfter : ShellState :=
  { cwd := ["r", "m1"], cwdNames := ["/", "main"], attachedTabId := some 1, env := [] }

/-- Witness for C5 at Scenario D: `cd main/form` where `form` does not exist
under `main` returns the no-such-directory output for `form` while the CWD
ends at `main`, not at the original root. -/
theorem cd_partial_navigation_kept_witness :
    handleCd ["main/form"] stateScenarioD mapScenarioD =
      .ok (cdNoSuchMsg "form") stateScenarioDAfter :=
  cd_partial_navigation_kept mapScenarioD stateScenarioD stateScenarioDAfter
    "main/form" ["main"] [] "form" "m1" (by decide) (by decide) (by decide)
    (by decide) (by decide) (by decide) (by decide) (Or.inl (by decide))

/-- C6 counterexample: `pwd` executed in the DETACHED initial state succeeds
with output `/` — it does not fail with the NotAttached error. -/
theorem pwd_detached_cx :
    executeCommand "pwd" initState [] = .done "/" initState ∧
    "/" ≠ errorRender notAttachedMsg :=
  ⟨by decide, by decide⟩

theorem ensureAttachedFails_detached (s : ShellState) (m : NodeMap)
    (h : s.attachedTabId = none) : ensureAttachedFails s m = true := by
  simp [ensureAttachedFails, jsFalsyTab, h]

theorem jsFalsyTab_detached (s : ShellState) (h : s.attachedTabId = none) :
    jsFalsyTab s.attachedTabId = true := by
  rw [h]
  rfl

/-- C6 amended: in the DETACHED state the tree-reading and actuation commands
(ls, cd, cat, click, focus, type, grep, tree) fail with the NotAttached error
and leave the state unchanged; refresh, whoami and detach return their own
not-attached notices; and pwd, env, export, clear and help execute normally
without requiring attachment (pwd prints the CWD names, env the environment,
and export updates the environment). -/
theorem detached_command_behaviour (s : ShellState) (m : NodeMap)
    (h : s.attachedTabId = none) :
    executeCommand "ls" s m = .done (errorRender notAttachedMsg) s ∧
    executeCommand "cd x" s m = .done (errorRender notAttachedMsg) s ∧
    executeCommand "cat x" s m = .done (errorRender notAttachedMsg) s ∧
    executeCommand "click x" s m = .done (errorRender notAttachedMsg) s ∧
    executeCommand "focus x" s m = .done (errorRender notAttachedMsg) s ∧
    executeCommand "type hello" s m = .done (errorRender notAttachedMsg) s ∧
    executeCommand "grep x" s m = .done (errorRender notAttachedMsg) s ∧
    executeCommand "tree" s m = .done (errorRender notAttachedMsg) s ∧
    executeCommand "refresh" s m =
      .done "\x1b[31mNot attached. Run \x27attach\x27 first.\x1b[0m" s ∧
    executeCommand "whoami" s m =
      .done "\x1b[31mNot attached. Run \x27attach\x27 first.\x1b[0m" s ∧
    executeCommand "detach" s m = .done "\x1b[33mNot attached to any tab.\x1b[0m" s ∧
    executeCommand "pwd" s m = .done (handlePwd s) s ∧
    executeCommand "env" s m = .done (handleEnv s) s ∧
    executeCommand "export K=V" s m =
      .done "\x1b[32m✓ K=V\x1b[0m" { s with env := envSet s.env "K" "V" } ∧
    executeCommand "clear" s m = .done "\x1b[2J\x1b[H" s ∧
    executeCommand "help" s m = .done helpText s := by
  have hE := ensureAttachedFails_detached s m h
  have hF := jsFalsyTab_detached s h
  refine ⟨?_, ?_, ?_, ?_, ?_, ?_, ?_, ?_, ?_, ?_, ?_, ?_, ?_, ?_, ?_, ?_⟩
  · simp [executeCommand, show jsTrim "ls" = "ls" from rfl,
      show parseCommandLine "ls" = ["ls"] from rfl,
      show strLower "ls" = "ls" from rfl, handleLs, hE]
  · simp [executeCommand, show jsTrim "cd x" = "cd x" from rfl,
      show parseCommandLine "cd x" = ["cd", "x"] from rfl,
      show strLower "cd" = "cd" from rfl, handleCd, hE]
  · simp [executeCommand, show jsTrim "cat x" = "cat x" from rfl,
      show parseCommandLine "cat x" = ["cat", "x"] from rfl,
      show strLower "cat" = "cat" from rfl, handleCat, hE]
  · simp [executeCommand, show jsTrim "click x" = "click x" from rfl,
      show parseCommandLine "click x" = ["click", "x"] from rfl,
      show strLower "click" = "click" from rfl, handleClick, hE]
  · simp [executeCommand, show jsTrim "focus x" = "focus x" from rfl,
      show parseCommandLine "focus x" = ["focus", "x"] from rfl,
      show strLower "focus" = "focus" from rfl, handleFocus, hE]
  · simp [executeCommand, show jsTrim "type hello" = "type hello" from rfl,
      show parseCommandLine "type hello" = ["type", "hello"] from rfl,
      show strLower "type" = "type" from rfl, handleType, hE]
  · simp [executeCommand, show jsTrim "grep x" = "grep x" from rfl,
      show parseCommandLine "grep x" = ["grep", "x"] from rfl,
      show strLower "grep" = "grep" from rfl, handleGrep, hE]
  · simp [executeCommand, show jsTrim "tree" = "tree" from rfl,
      show parseCommandLine "tree" = ["tree"] from rfl,
      show strLower "tree" = "tree" from rfl, handleTree, hE]
  · simp [executeCommand, show jsTrim "refresh" = "refresh" from rfl,
      show parseCommandLine "refresh" = ["refresh"] from rfl,
      show strLower "refresh" = "refresh" from rfl, handleRefreshGuard, hF]
  · simp [executeCommand, show jsTrim "whoami" = "whoami" from rfl,
      show parseCommandLine "whoami" = ["whoami"] from rfl,
      show strLower "whoami" = "whoami" from rfl, handleWhoamiGuard, hF]
  · simp [executeCommand, show jsTrim "detach" = "detach" from rfl,
      show parseCommandLine "detach" = ["detach"] from rfl,
      show strLower "detach" = "detach" from rfl, handleDetachGuard, hF]
  · simp [executeCommand, show jsTrim "pwd" = "pwd" from rfl,
      show parseCommandLine "pwd" = ["pwd"] from rfl,
      show strLower "pwd" = "pwd" from rfl]
  · simp [executeCommand, show jsTrim "env" = "env" from rfl,
      show parseCommandLine "env" = ["env"] from rfl,
      show strLower "env" = "env" from rfl]
  · exact show executeCommand "export K=V" s m = _ from rfl
  · simp [executeCommand, show jsTrim "clear" = "clear" from rfl,
      show parseCommandLine "clear" = ["clear"] from rfl,
      show strLower "clear" = "clear" from rfl]
  · simp [executeCommand, show jsTrim "help" = "help" from rfl,
      show parseCommandLine "help" = ["help"] from rfl,
      show strLower "help" = "help" from rfl]

/-- Witness for the amended C6 at the initial state. -/
theorem detached_command_behaviour_witness :
    executeCommand "ls" initState [] = .done (errorRender notAttachedMsg) initState :=
  (detached_command_behaviour initState [] rfl).1

/-- A single root node. -/
def axRootSolo : AXNode :=
  { nodeId := "r", role := some "RootWebArea", name := some "Doc" }

/-- C7 counterexample: after `detach` (here following a successful attach) the
CWD id sequence is empty while the CWD display-name sequence is `["/"]`, so
the two lengths differ (0 against 1). -/
theorem detach_length_mismatch_cx :
    (doDetach (doAttach 1 [axRootSolo] initState).1
        (doAttach 1 [axRootSolo] initState).2).1.cwd.length = 0 ∧
    (doDetach (doAttach 1 [axRootSolo] initState).1
        (doAttach 1 [axRootSolo] initState).2).1.cwdNames.length = 1 ∧
    (doDetach (doAttach 1 [axRootSolo] initState).1
        (doAttach 1 [axRootSolo] initState).2).1.cwd.length ≠
      (doDetach (doAttach 1 [axRootSolo] initState).1
        (doAttach 1 [axRootSolo] initState).2).1.cwdNames.length :=
  ⟨by decide, by decide, by decide⟩

theorem popState_len (s : ShellState)
    (hl : s.cwd.length = s.cwdNames.length) :
    (popState s).cwd.length = (popState s).cwdNames.length := by
  unfold popState
  split
  · simp [List.length_dropLast, hl]
  · exact hl

theorem pushState_len (s : ShellState) (v : VFSNode)
    (hl : s.cwd.length = s.cwdNames.length) :
    (pushState s v).cwd.length = (pushState s v).cwdNames.length := by
  simp [pushState, hl]

theorem cdLoop_len (m : NodeMap) (parts : List String) :
    ∀ (s : ShellState), s.cwd.length = s.cwdNames.length →
      ∀ out st, cdLoop m parts s = .ok out st →
        st.cwd.length = st.cwdNames.length := by
  induction parts with
  | nil =>
    intro s hl out st hres
    cases hres
    exact hl
  | cons part rest ih =>
    intro s hl out st hres
    unfold cdLoop at hres
    by_cases hdd : part = ".."
    · rw [if_pos hdd] at hres
      exact ih _ (popState_len s hl) _ _ hres
    · rw [if_neg hdd] at hres
      cases hlast : s.cwd.getLast? with
      | none =>
        simp only [hlast] at hres
        cases hres
      | some cid =>
        simp only [hlast] at hres
        cases hfind : findChildByName cid part m with
        | none =>
          simp only [hfind] at hres
          cases hres
          exact hl
        | some v =>
          simp only [hfind] at hres
          by_cases hdir : v.isDirectory
          · rw [if_pos hdir] at hres
            exact ih _ (pushState_len s v hl) _ _ hres
          · rw [if_neg hdir] at hres
            cases hres
            exact hl

theorem handleCd_len (args : List String) (s : ShellState) (m : NodeMap)
    (hl : s.cwd.length = s.cwdNames.length) :
    ∀ out st, handleCd args s m = .ok out st →
      st.cwd.length = st.cwdNames.length := by
  intro out st hres
  unfold handleCd at hres
  by_cases hatt : ensureAttachedFails s m
  · rw [if_pos hatt] at hres
    cases hres
  · rw [if_neg hatt] at hres
    have hroot : ∀ (hres : cdRootCase s m = HRes.ok out st),
        st.cwd.length = st.cwdNames.length := by
      intro hres
      unfold cdRootCase at hres
      cases hr : findRootNode m with
      | none =>
        rw [hr] at hres
        cases hres
        exact hl
      | some root =>
        rw [hr] at hres
        cases hres
        rfl
    cases args with
    | nil => exact hroot hres
    | cons target rest =>
      have hres' : (if target = "/" then cdRootCase s m
          else if target = ".." then HRes.ok "" (popState s)
          else cdLoop m (splitPath target) s) = HRes.ok out st := hres
      by_cases hs : target = "/"
      · rw [if_pos hs] at hres'
        exact hroot hres'
      · rw [if_neg hs] at hres'
        by_cases hdd : target = ".."
        · rw [if_pos hdd] at hres'
          cases hres'
          exact popState_len s hl
        · rw [if_neg hdd] at hres'
          exact cdLoop_len m (splitPath target) s hl out st hres' 

/-- C7 amended: in the attached flows the invariant `len(CWD) ==
len(CWDNames)` holds — a successful attach or refresh that finds a root sets
both to length one, and every `cd` outcome preserves equality — but `detach`
breaks it by design: it empties CWD while resetting CWDNames to `["/"]`,
leaving lengths 0 and 1 (the initial state has the same shape). -/
theorem cwd_cwdNames_length_invariant (tab : Nat) (nodes : List AXNode)
    (s : ShellState) (m : NodeMap) (args : List String) :
    (∀ r, findRootNode (buildNodeMap nodes) = some r →
      (doAttach tab nodes s).1.cwd.length = (doAttach tab nodes s).1.cwdNames.length) ∧
    (jsFalsyTab s.attachedTabId = false →
      ∀ r, findRootNode (buildNodeMap nodes) = some r →
        (doRefresh nodes s m).1.cwd.length = (doRefresh nodes s m).1.cwdNames.length) ∧
    (s.cwd.length = s.cwdNames.length →
      ∀ out st, handleCd args s m = .ok out st →
        st.cwd.length = st.cwdNames.length) ∧
    (jsFalsyTab s.attachedTabId = false →
      (doDetach s m).1.cwd.length = 0 ∧ (doDetach s m).1.cwdNames.length = 1) := by
  refine ⟨?_, ?_, ?_, ?_⟩
  · intro r hr
    simp [doAttach, hr]
  · intro hF r hr
    simp [doRefresh, hF, hr]
  · intro hl
    exact handleCd_len args s m hl
  · intro hF
    simp [doDetach, hF]

/-- Witness for the amended C7: attach sets lengths 1 = 1, the Scenario D `cd`
keeps them equal, and detach leaves lengths 0 and 1. -/
theorem cwd_cwdNames_length_invariant_witness :
    (doAttach 1 [axRootSolo] initState).1.cwd.length =
      (doAttach 1 [axRootSolo] initState).1.cwdNames.length ∧
    stateScenarioDAfter.cwd.length = stateScenarioDAfter.cwdNames.length ∧
    (doDetach stateScenarioD mapScenarioD).1.cwd.length = 0 ∧
    (doDetach stateScenarioD mapScenarioD).1.cwdNames.length = 1 :=
  ⟨(cwd_cwdNames_length_invariant 1 [axRootSolo] initState [] []).1 axRootSolo (by decide),
   (cwd_cwdNames_length_invariant 1 [axRootSolo] stateScenarioD mapScenarioD
      ["main"]).2.2.1 (by decide) "" stateScenarioDAfter (by decide),
   (cwd_cwdNames_length_invariant 1 [axRootSolo] stateScenarioD mapScenarioD
      ["main"]).2.2.2 (by decide)⟩

/-- A main-document node and a sub-frame node carrying the same raw CDP id. -/
def axMainFrameNode : AXNode :=
  { nodeId := "1", role := some "RootWebArea", name := some "Outer" }

def axSubFrameNode : AXNode :=
  { nodeId := "1", role := some "RootWebArea", name := some "Inner" }

/-- C8: `getFullAXTree` issues one `Accessibility.getFullAXTree` request and
returns the response's node list unchanged — no sub-frame enumeration, no
per-frame fetch, no id prefixing; when records from different frames carry
the same raw id (as in the concrete response below), the returned sequence
keeps the collision. -/
theorem getFullAXTree_single_fetch :
    (∀ resp : CDPAXTreeResponse, getFullAXTree resp = resp.nodes) ∧
    getFullAXTree ⟨[axMainFrameNode, axSubFrameNode]⟩ =
      [axMainFrameNode, axSubFrameNode] ∧
    (getFullAXTree ⟨[axMainFrameNode, axSubFrameNode]⟩).map (fun n => n.nodeId) =
      ["1", "1"] ∧
    ¬((getFullAXTree ⟨[axMainFrameNode, axSubFrameNode]⟩).map
        (fun n => n.nodeId)).Nodup :=
  ⟨fun _ => rfl, rfl, by decide, by decide⟩

/-- C9: the `find` command is not implemented by `executeCommand` — it falls
through to the command-not-found default, both in the detached initial state
and in an attached state with a populated NodeMap. -/
theorem find_command_not_found :
    executeCommand "find" initState [] =
      .done (cmdNotFoundMsg "find") initState ∧
    executeCommand "find submit" stateScenarioD mapScenarioD =
      .done (cmdNotFoundMsg "find") stateScenarioD :=
  ⟨by decide, by decide⟩
